import Mathlib

/-!
# Verification of the exchange lifecycle and settlement core of `intercambio_dorado`

Shallow embedding of the exchange state machine, settlement engine, credit
ledger, exchange creation/deletion and rating gate of `app/app.py`, backed by
the persistence helpers of `app/db.py`.

The database is modelled as lists of rows (`DB`).  Each call to the helper
`execute` in `app/db.py` opens a fresh connection and commits the single
statement before returning, so a handler that issues several `execute` calls
produces a *sequence* of independently committed states.  We model each SQL
statement a handler issues as a `Mutacion`, a handler run as the result code
paired with the ordered list of statements it executes, and the persisted
states a run passes through as the prefix applications (`estadosAlcanzables`).
-/

namespace IntercambioDorado

/-- Row of table `usuario` (the columns the core touches). -/
structure Usuario where
  id : Nat
  creditos : Int
  deriving Repr, DecidableEq

/-- Row of table `servicio`. -/
structure Servicio where
  id : Nat
  id_usuario : Nat
  creditos_hora : Int
  deriving Repr, DecidableEq

/-- Row of table `intercambio`. -/
structure Intercambio where
  id : Nat
  id_servicio_solicitado : Nat
  id_solicitante : Nat
  id_proveedor : Nat
  id_servicio_contraparte : Option Nat
  estado : String
  deriving Repr, DecidableEq

/-- Row of table `valoracion`. -/
structure Valoracion where
  id : Nat
  id_intercambio : Nat
  id_autor : Nat
  id_destinatario : Nat
  puntuacion : Int
  comentario : String
  deriving Repr, DecidableEq

/-- The persistent store. -/
structure DB where
  usuarios : List Usuario
  servicios : List Servicio
  intercambios : List Intercambio
  valoraciones : List Valoracion
  deriving Repr, DecidableEq

/-- `ESTADOS` from `app.py`: the allowed exchange states, in canonical order. -/
def ESTADOS : List String :=
  ["pendiente", "confirmado", "en_progreso", "completado", "cancelado"]

/-- `TRANSICIONES` from `app.py`: the transition table, read with
`TRANSICIONES.get(actual, set())` so unknown keys give the empty set. -/
def TRANSICIONES (estado : String) : List String :=
  if estado = "pendiente" then ["confirmado", "cancelado"]
  else if estado = "confirmado" then ["en_progreso", "cancelado"]
  else if estado = "en_progreso" then ["completado", "cancelado"]
  else if estado = "completado" then []
  else if estado = "cancelado" then []
  else []

/-- `SELECT creditos FROM usuario WHERE id_usuario=%s` (first matching row). -/
def creditosDe (us : List Usuario) (uid : Nat) : Option Int :=
  (us.find? (fun u => u.id == uid)).map Usuario.creditos

/-- `SELECT estado FROM intercambio WHERE id_intercambio=%s`. -/
def estadoDe (db : DB) (id_inter : Nat) : Option String :=
  (db.intercambios.find? (fun i => i.id == id_inter)).map Intercambio.estado

/-- `UPDATE usuario SET creditos = creditos + delta WHERE id_usuario=%s`. -/
def updCreditos (delta : Int) (uid : Nat) (us : List Usuario) : List Usuario :=
  us.map (fun u => if u.id = uid then { u with creditos := u.creditos + delta } else u)

/-- One SQL statement committed on its own by `execute` in `app/db.py`. -/
inductive Mutacion
  /-- `UPDATE usuario SET creditos = creditos + delta WHERE id_usuario=uid`. -/
  | creditosMas (delta : Int) (uid : Nat)
  /-- `UPDATE intercambio SET estado=nuevo WHERE id_intercambio=id_inter`. -/
  | setEstado (nuevo : String) (id_inter : Nat)
  deriving Repr, DecidableEq

/-- Effect of one committed statement on the store. -/
def aplicar (m : Mutacion) (db : DB) : DB :=
  match m with
  | .creditosMas d w => { db with usuarios := updCreditos d w db.usuarios }
  | .setEstado e idI =>
      { db with intercambios :=
          db.intercambios.map (fun i => if i.id = idI then { i with estado := e } else i) }

/-- All persisted states a run passes through: since every `execute` commits
independently, every prefix of the statement list is a durable state. -/
def estadosAlcanzables (db : DB) : List Mutacion → List DB
  | [] => [db]
  | m :: ms => db :: estadosAlcanzables (aplicar m db) ms

/-- Final store after all statements of a run. -/
def aplicarTodo (db : DB) (ms : List Mutacion) : DB :=
  ms.foldl (fun d m => aplicar m d) db

/-- Outcome of `intercambios_estado` (each distinct flash/redirect path). -/
inductive EstadoResult
  /-- "Estado inválido." — `nuevo not in ESTADOS`. -/
  | estadoInvalido
  /-- "No tienes permisos para cambiar este intercambio o no existe." -/
  | sinPermisos
  /-- "El intercambio ya está en ese estado." -/
  | yaEnEseEstado
  /-- "No se permite cambiar de 'actual' a 'nuevo'." -/
  | transicionNoPermitida
  /-- "Solo el proveedor puede avanzar el estado …". -/
  | soloProveedor
  /-- "Para completar, primero debe estar en 'en_progreso'." -/
  | requiereEnProgreso
  /-- "Saldo insuficiente. …". -/
  | saldoInsuficiente
  /-- "Estado actualizado." -/
  | ok
  deriving Repr, DecidableEq

/-- The query opening `intercambios_estado`: the exchange joined with its
requested service, restricted to the acting participant.  A missing service
row makes the join empty, exactly like a missing or foreign exchange. -/
def estadoQuery (db : DB) (id_inter uid : Nat) : Option (Intercambio × Int) :=
  match db.intercambios.find?
      (fun i => i.id == id_inter && (i.id_solicitante == uid || i.id_proveedor == uid)) with
  | none => none
  | some i =>
      match db.servicios.find? (fun s => s.id == i.id_servicio_solicitado) with
      | none => none
      | some s => some (i, s.creditos_hora)

/-- `intercambios_estado` from `app.py`: the decision logic of the transition
handler, returning the outcome and the ordered list of SQL statements the
handler executes (each committed on its own by `execute`). -/
def intercambios_estado (db : DB) (uid id_intercambio : Nat) (nuevo : String) :
    EstadoResult × List Mutacion :=
  if nuevo ∉ ESTADOS then (.estadoInvalido, [])
  else
    match estadoQuery db id_intercambio uid with
    | none => (.sinPermisos, [])
    | some (i, creditos_hora) =>
      let actual := i.estado
      let es_proveedor := uid = i.id_proveedor
      if nuevo = actual then (.yaEnEseEstado, [])
      else if nuevo ∉ TRANSICIONES actual then (.transicionNoPermitida, [])
      else if (nuevo = "confirmado" ∨ nuevo = "en_progreso" ∨ nuevo = "completado")
          ∧ ¬ es_proveedor then (.soloProveedor, [])
      else if nuevo = "completado" then
        if actual ≠ "en_progreso" then (.requiereEnProgreso, [])
        else
          match i.id_servicio_contraparte with
          | none =>
            let costo := creditos_hora
            match creditosDe db.usuarios i.id_solicitante with
            | none => (.saldoInsuficiente, [])
            | some saldo =>
              if saldo < costo then (.saldoInsuficiente, [])
              else (.ok, [.creditosMas (-costo) i.id_solicitante,
                          .creditosMas costo i.id_proveedor,
                          .setEstado nuevo id_intercambio])
          | some _ => (.ok, [.setEstado nuevo id_intercambio])
      else (.ok, [.setEstado nuevo id_intercambio])

/-- One full run of the transition handler: outcome plus the store after all
its statements have committed. -/
def runEstado (db : DB) (uid id_intercambio : Nat) (nuevo : String) : EstadoResult × DB :=
  let r := intercambios_estado db uid id_intercambio nuevo
  (r.1, aplicarTodo db r.2)

/-- Python's `str.strip()`, modelled structurally on the character list (the
built-in `String.trim` is defined by well-founded recursion and does not
evaluate inside the kernel). -/
def strip (s : String) : String :=
  ⟨((s.data.dropWhile Char.isWhitespace).reverse.dropWhile Char.isWhitespace).reverse⟩

/-- `valid_int` from `app.py`: the raw form value is `none` when `int()` would
raise, otherwise the parsed integer, which is then bounds-checked. -/
def valid_int (value : Option Int) (min_val max_val : Int) : Option Int :=
  match value with
  | none => none
  | some n => if n < min_val ∨ n > max_val then none else some n

/-- `valid_text` from `app.py`: strip then check minimum/maximum length
(Python's `len` counts code points, i.e. the character list). -/
def valid_text (value : Option String) (min_len max_len : Nat) : Option String :=
  let v := strip (value.getD "")
  if v.data.length < min_len ∨ v.data.length > max_len then none else some v

/-- Outcome of `intercambios_solicitar` (POST branch). -/
inductive SolicitarResult
  /-- "Servicio no encontrado." -/
  | servicioNoEncontrado
  /-- "No puedes solicitar intercambio por tu propio servicio." -/
  | propioServicio
  /-- "Ya tienes una solicitud activa para este servicio." -/
  | solicitudActiva
  /-- "Solicitud enviada a …". -/
  | creado
  deriving Repr, DecidableEq

/-- The query opening `intercambios_solicitar`: the service joined with its
owner (text columns of `servicio` play no role in the core and are omitted). -/
def servicioConDueno (db : DB) (id_servicio : Nat) : Option Servicio :=
  match db.servicios.find? (fun s => s.id == id_servicio) with
  | none => none
  | some s =>
      match db.usuarios.find? (fun u => u.id == s.id_usuario) with
      | none => none
      | some _ => some s

/-- The duplicate-active-request check shared by both creation paths:
`SELECT 1 FROM intercambio WHERE id_servicio_solicitado=%s AND
id_solicitante=%s AND id_proveedor=%s AND estado IN
('pendiente','confirmado','en_progreso') LIMIT 1`. -/
def existeActiva (db : DB) (id_servicio uid prov : Nat) : Bool :=
  db.intercambios.any (fun i =>
    i.id_servicio_solicitado == id_servicio && i.id_solicitante == uid &&
    i.id_proveedor == prov &&
    ["pendiente", "confirmado", "en_progreso"].contains i.estado)

/-- `intercambios_solicitar` from `app.py` (POST): request an exchange for a
public service.  `newId` is the id the database assigns to the inserted row. -/
def intercambios_solicitar (db : DB) (uid id_servicio newId : Nat) :
    SolicitarResult × DB :=
  match servicioConDueno db id_servicio with
  | none => (.servicioNoEncontrado, db)
  | some serv =>
    if serv.id_usuario = uid then (.propioServicio, db)
    else if existeActiva db id_servicio uid serv.id_usuario then (.solicitudActiva, db)
    else (.creado, { db with intercambios := db.intercambios ++
        [⟨newId, id_servicio, uid, serv.id_usuario, none, "pendiente"⟩] })

/-- Raw form fields of the direct-creation POST; `none` models a missing field
or one `int()` cannot parse. -/
structure DirectForm where
  proveedor_id : Option Int
  id_servicio_solicitado : Option Int
  modo : Option String
  id_servicio_contraparte : Option Int
  nuevo_titulo : Option String
  nueva_descripcion : Option String
  nuevo_creditos_hora : Option Int
  deriving Repr, DecidableEq

/-- Outcome of `intercambios_create_direct` (POST branch). -/
inductive DirectResult
  /-- "Debes seleccionar un usuario y un servicio válido." -/
  | seleccionInvalida
  /-- "Ya tienes una solicitud activa para ese servicio con ese usuario." -/
  | solicitudActiva
  /-- "Servicio ofrecido inválido." -/
  | servicioOfrecidoInvalido
  /-- "Si eliges ofrecer un servicio nuevo, completa título, descripción y créditos." -/
  | datosNuevoServicioInvalidos
  /-- "Intercambio directo creado. …". -/
  | creado
  deriving Repr, DecidableEq

/-- `intercambios_create_direct` from `app.py` (POST): create an exchange
directly, optionally offering a counter-service (an existing one or one
created on the spot; `newServId`/`newInterId` are the database-assigned ids).
Text columns of the on-the-spot service are validated and then dropped, since
`Servicio` only keeps the columns the core reads back. -/
def intercambios_create_direct (db : DB) (uid : Nat) (f : DirectForm)
    (newServId newInterId : Nat) : DirectResult × DB :=
  let proveedor_id := valid_int f.proveedor_id 1 (10 ^ 9)
  let id_servicio_solicitado := valid_int f.id_servicio_solicitado 1 (10 ^ 9)
  let modo := strip (match f.modo with
    | none => "creditos"
    | some m => if m = "" then "creditos" else m)
  let prov_ok : Option Usuario := match proveedor_id with
    | none => none
    | some pid => db.usuarios.find? (fun u => (u.id : Int) == pid)
  let serv_ok : Option Servicio := match id_servicio_solicitado, proveedor_id with
    | some sid, some pid =>
        db.servicios.find? (fun s => (s.id : Int) == sid && (s.id_usuario : Int) == pid)
    | _, _ => none
  match prov_ok, serv_ok with
  | some _, some serv =>
    if existeActiva db serv.id uid serv.id_usuario then (.solicitudActiva, db)
    else if modo = "servicio" then
      match valid_int f.id_servicio_contraparte 1 (10 ^ 9) with
      | some offer_id =>
          if db.servicios.any (fun s => (s.id : Int) == offer_id && s.id_usuario == uid) then
            (.creado, { db with intercambios := db.intercambios ++
                [⟨newInterId, serv.id, uid, serv.id_usuario, some offer_id.toNat, "pendiente"⟩] })
          else (.servicioOfrecidoInvalido, db)
      | none =>
          match valid_text f.nuevo_titulo 3 120, valid_text f.nueva_descripcion 10 600,
              valid_int f.nuevo_creditos_hora 1 10 with
          | some _, some _, some c =>
              (.creado, { db with
                  servicios := db.servicios ++ [⟨newServId, uid, c⟩],
                  intercambios := db.intercambios ++
                    [⟨newInterId, serv.id, uid, serv.id_usuario, some newServId, "pendiente"⟩] })
          | _, _, _ => (.datosNuevoServicioInvalidos, db)
    else
      (.creado, { db with intercambios := db.intercambios ++
          [⟨newInterId, serv.id, uid, serv.id_usuario, none, "pendiente"⟩] })
  | _, _ => (.seleccionInvalida, db)

/-- Outcome of `intercambios_delete`. -/
inductive DeleteResult
  /-- "Intercambio no encontrado." -/
  | noEncontrado
  /-- "No tienes permisos para eliminar este intercambio." -/
  | sinPermisos
  /-- "No puedes eliminar un intercambio en 'confirmado' o 'en_progreso'. …". -/
  | bloqueado
  /-- "Intercambio eliminado." -/
  | eliminado
  deriving Repr, DecidableEq

/-- `intercambios_delete` from `app.py`: hard-delete an exchange. -/
def intercambios_delete (db : DB) (uid id_intercambio : Nat) : DeleteResult × DB :=
  match db.intercambios.find? (fun i => i.id == id_intercambio) with
  | none => (.noEncontrado, db)
  | some inter =>
    if uid ≠ inter.id_solicitante ∧ uid ≠ inter.id_proveedor then (.sinPermisos, db)
    else if inter.estado = "confirmado" ∨ inter.estado = "en_progreso" then (.bloqueado, db)
    else (.eliminado,
      { db with intercambios := db.intercambios.filter (fun j => j.id != id_intercambio) })

/-- Outcome of `intercambios_aceptar` (POST branch). -/
inductive AceptarResult
  /-- "Intercambio no encontrado o no tienes permisos." -/
  | noEncontrado
  /-- "Solo puedes aceptar intercambios en estado pendiente." -/
  | noPendiente
  /-- "Debes seleccionar un servicio válido del solicitante." -/
  | servicioInvalido
  /-- "Intercambio aceptado con pago en créditos. Estado: confirmado." -/
  | aceptadoCreditos
  /-- "Intercambio aceptado. Estado: confirmado." -/
  | aceptadoServicio
  deriving Repr, DecidableEq

/-- The query opening `intercambios_aceptar`: the exchange restricted to its
provider, joined with the requester and the requested service. -/
def aceptarQuery (db : DB) (id_inter uid : Nat) : Option Intercambio :=
  match db.intercambios.find? (fun i => i.id == id_inter && i.id_proveedor == uid) with
  | none => none
  | some i =>
      match db.usuarios.find? (fun u => u.id == i.id_solicitante),
          db.servicios.find? (fun s => s.id == i.id_servicio_solicitado) with
      | some _, some _ => some i
      | _, _ => none

/-- `intercambios_aceptar` from `app.py` (POST): the provider accepts a
pending exchange, choosing credit payment (`modo = "creditos"`, which clears
any counter-service) or barter against one of the requester's services. -/
def intercambios_aceptar (db : DB) (uid id_intercambio : Nat) (modo : Option String)
    (id_servicio_contraparte : Option Int) : AceptarResult × DB :=
  match aceptarQuery db id_intercambio uid with
  | none => (.noEncontrado, db)
  | some inter =>
    if inter.estado ≠ "pendiente" then (.noPendiente, db)
    else
      let servicios_solicitante :=
        db.servicios.filter (fun s => s.id_usuario == inter.id_solicitante)
      let m := strip (modo.getD "")
      if m = "creditos" then
        (.aceptadoCreditos, { db with intercambios := db.intercambios.map (fun j =>
            if j.id = id_intercambio ∧ j.id_proveedor = uid then
              { j with id_servicio_contraparte := none, estado := "confirmado" }
            else j) })
      else
        match valid_int id_servicio_contraparte 1 (10 ^ 9) with
        | none => (.servicioInvalido, db)
        | some id_contra =>
          if servicios_solicitante.any (fun s => (s.id : Int) == id_contra) then
            (.aceptadoServicio, { db with intercambios := db.intercambios.map (fun j =>
                if j.id = id_intercambio ∧ j.id_proveedor = uid then
                  { j with id_servicio_contraparte := some id_contra.toNat,
                           estado := "confirmado" }
                else j) })
          else (.servicioInvalido, db)

/-- Outcome of `valoraciones_create` (POST branch). -/
inductive ValorarResult
  /-- "Intercambio no encontrado o sin permisos." -/
  | sinPermisos
  /-- "Solo puedes valorar intercambios completados." -/
  | noCompletado
  /-- "Ya valoraste este intercambio." -/
  | yaValorado
  /-- "La puntuación debe estar entre 1 y 5." -/
  | puntuacionInvalida
  /-- "Valoración registrada." -/
  | registrado
  deriving Repr, DecidableEq

/-- `valoraciones_create` from `app.py` (POST): submit a rating for a
completed exchange the actor participated in. -/
def valoraciones_create (db : DB) (uid id_intercambio : Nat) (puntuacion : Option Int)
    (comentario : Option String) (newId : Nat) : ValorarResult × DB :=
  match db.intercambios.find?
      (fun i => i.id == id_intercambio && (i.id_solicitante == uid || i.id_proveedor == uid)) with
  | none => (.sinPermisos, db)
  | some inter =>
    if inter.estado ≠ "completado" then (.noCompletado, db)
    else
      let destinatario :=
        if uid = inter.id_solicitante then inter.id_proveedor else inter.id_solicitante
      if db.valoraciones.any (fun v => v.id_intercambio == id_intercambio && v.id_autor == uid) then
        (.yaValorado, db)
      else
        match valid_int puntuacion 1 5 with
        | none => (.puntuacionInvalida, db)
        | some p =>
          let c := strip (comentario.getD "")
          let c := if c.data.length > 300 then String.mk (c.data.take 300) else c
          (.registrado, { db with valoraciones := db.valoraciones ++
              [⟨newId, id_intercambio, uid, destinatario, p, c⟩] })

/-! ## Lookup lemmas -/

/-- Reading a balance after a ledger update: the updated user's first row moves
by `d`, every other user's balance is untouched. -/
theorem creditosDe_updCreditos (d : Int) (w v : Nat) (us : List Usuario) :
    creditosDe (updCreditos d w us) v =
      (creditosDe us v).map (fun c => if v = w then c + d else c) := by
  induction us with
  | nil => rfl
  | cons u rest ih =>
    have hfu : ((if u.id = w then { u with creditos := u.creditos + d } else u) : Usuario).id
        = u.id := by
      by_cases hw : u.id = w <;> simp [hw]
    simp only [creditosDe, updCreditos, List.map_cons] at ih ⊢
    by_cases h : u.id = v
    · rw [List.find?_cons_of_pos _ (by rw [hfu]; simpa using h),
        List.find?_cons_of_pos _ (by simpa using h)]
      by_cases hw : u.id = w
      · have hvw : v = w := by rw [← h, hw]
        simp [hw, hvw]
      · have hvw : ¬ v = w := fun hvw => hw (by rw [h, hvw])
        simp [hw, hvw]
    · rw [List.find?_cons_of_neg _ (by rw [hfu]; simpa using h),
        List.find?_cons_of_neg _ (by simpa using h)]
      exact ih

/-- `find?` by key commutes with a row-wise update that preserves the key. -/
theorem find?_map_key {α : Type} (key : α → Nat) (f : α → α)
    (hf : ∀ a, key (f a) = key a) (k : Nat) (l : List α) :
    (l.map f).find? (fun a => key a == k) = (l.find? (fun a => key a == k)).map f := by
  induction l with
  | nil => rfl
  | cons a rest ih =>
    by_cases h : key a = k
    · rw [List.map_cons, List.find?_cons_of_pos, List.find?_cons_of_pos] <;> simp [hf, h]
    · rw [List.map_cons, List.find?_cons_of_neg, List.find?_cons_of_neg, ih] <;> simp [hf, h]

/-- In a list whose keys are pairwise distinct, `find?` by the key of a member
returns exactly that member. -/
theorem find?_eq_of_mem_of_nodupKeys {α : Type} (key : α → Nat) (l : List α)
    (huniq : l.Pairwise (fun a b => key a ≠ key b)) (x : α) (hmem : x ∈ l)
    (k : Nat) (hk : key x = k) :
    l.find? (fun a => key a == k) = some x := by
  induction l with
  | nil => cases hmem
  | cons a rest ih =>
    rcases List.mem_cons.mp hmem with rfl | hmem
    · exact List.find?_cons_of_pos _ (by simp [hk])
    · have hne : key a ≠ key x := (List.pairwise_cons.mp huniq).1 x hmem
      rw [List.find?_cons_of_neg _ (by simp [hk ▸ hne])]
      exact ih (List.pairwise_cons.mp huniq).2 hmem

/-- Branch reduction for the completion path: once the state-machine
preconditions hold (actor is the provider, exchange is `en_progreso`), the
handler's remaining behaviour is decided by the settlement mode and, for
credit settlement, the requester's balance. -/
theorem intercambios_estado_completado (db : DB) (uid idI : Nat) (i : Intercambio) (costo : Int)
    (hq : estadoQuery db idI uid = some (i, costo))
    (hst : i.estado = "en_progreso")
    (hprov : uid = i.id_proveedor) :
    intercambios_estado db uid idI "completado" =
      match i.id_servicio_contraparte with
      | none =>
        match creditosDe db.usuarios i.id_solicitante with
        | none => (.saldoInsuficiente, [])
        | some saldo =>
          if saldo < costo then (.saldoInsuficiente, [])
          else (.ok, [.creditosMas (-costo) i.id_solicitante,
                      .creditosMas costo i.id_proveedor,
                      .setEstado "completado" idI])
      | some _ => (.ok, [.setEstado "completado" idI]) := by
  subst hprov
  simp [intercambios_estado, hq, hst, ESTADOS, TRANSICIONES]

/-! ## Claims about the transition handler -/

/-- C1: for an exchange with no counter-service, a successful transition from
`en_progreso` to `completado` debits the requester by exactly the requested
service's hourly cost, credits the provider by the same amount, and so
conserves the sum of the two balances. -/
theorem credit_settlement_conserva_y_debita (db : DB) (uid idI : Nat) (i : Intercambio)
    (costo saldoS saldoP : Int)
    (hq : estadoQuery db idI uid = some (i, costo))
    (hst : i.estado = "en_progreso")
    (hcp : i.id_servicio_contraparte = none)
    (hprov : uid = i.id_proveedor)
    (hS : creditosDe db.usuarios i.id_solicitante = some saldoS)
    (hP : creditosDe db.usuarios i.id_proveedor = some saldoP)
    (hfondos : ¬ saldoS < costo)
    (hne : i.id_solicitante ≠ i.id_proveedor) :
    (runEstado db uid idI "completado").1 = .ok ∧
    creditosDe (runEstado db uid idI "completado").2.usuarios i.id_solicitante
      = some (saldoS - costo) ∧
    creditosDe (runEstado db uid idI "completado").2.usuarios i.id_proveedor
      = some (saldoP + costo) ∧
    (saldoS - costo) + (saldoP + costo) = saldoS + saldoP := by
  have hred := intercambios_estado_completado db uid idI i costo hq hst hprov
  rw [hcp, hS] at hred
  dsimp only at hred
  rw [if_neg hfondos] at hred
  unfold runEstado
  rw [hred]
  simp only [aplicarTodo, List.foldl, aplicar]
  have hne' : i.id_proveedor ≠ i.id_solicitante := fun h => hne h.symm
  refine ⟨by simp, ?_, ?_, by ring⟩
  · rw [creditosDe_updCreditos, creditosDe_updCreditos, hS]
    simp [hne, sub_eq_add_neg]
  · rw [creditosDe_updCreditos, creditosDe_updCreditos, hP]
    simp [hne']

/-- C2: if the requester's balance is below the cost, completing a
credit-settled exchange fails with insufficient funds and the store —
balances and exchange status included — is exactly as before the call. -/
theorem saldo_insuficiente_aborta (db : DB) (uid idI : Nat) (i : Intercambio)
    (costo saldoS : Int)
    (hq : estadoQuery db idI uid = some (i, costo))
    (hst : i.estado = "en_progreso")
    (hcp : i.id_servicio_contraparte = none)
    (hprov : uid = i.id_proveedor)
    (hS : creditosDe db.usuarios i.id_solicitante = some saldoS)
    (hlt : saldoS < costo) :
    runEstado db uid idI "completado" = (.saldoInsuficiente, db) ∧
    estadoDe (runEstado db uid idI "completado").2 idI = estadoDe db idI := by
  have hred := intercambios_estado_completado db uid idI i costo hq hst hprov
  rw [hcp, hS] at hred
  dsimp only at hred
  rw [if_pos hlt] at hred
  unfold runEstado
  rw [hred]
  exact ⟨rfl, rfl⟩

/-- C6: completing an exchange that carries a counter-service (barter mode)
succeeds with no balance check and leaves the whole user table — hence every
credit balance — unchanged. -/
theorem trueque_no_mueve_saldos (db : DB) (uid idI : Nat) (i : Intercambio)
    (costo : Int) (sc : Nat)
    (hq : estadoQuery db idI uid = some (i, costo))
    (hst : i.estado = "en_progreso")
    (hcp : i.id_servicio_contraparte = some sc)
    (hprov : uid = i.id_proveedor) :
    (runEstado db uid idI "completado").1 = .ok ∧
    (runEstado db uid idI "completado").2.usuarios = db.usuarios ∧
    ∀ v, creditosDe (runEstado db uid idI "completado").2.usuarios v
      = creditosDe db.usuarios v := by
  have hred := intercambios_estado_completado db uid idI i costo hq hst hprov
  rw [hcp] at hred
  unfold runEstado
  rw [hred]
  exact ⟨rfl, rfl, fun _ => rfl⟩

/-- Sample store for the C3 counterexample: a pending exchange between
requester 1 and provider 2 over service 5 (cost 3, owned by 2). -/
def dbC3 : DB :=
  { usuarios := [⟨1, 10⟩, ⟨2, 10⟩],
    servicios := [⟨5, 2, 3⟩],
    intercambios := [⟨7, 5, 1, 2, none, "pendiente"⟩],
    valoraciones := [] }

/-- C3, counterexample: `(pendiente, pendiente)` is not in the transition
table, yet the provider's request to re-enter `pendiente` is answered with
the distinct already-in-that-state no-op, not with illegal-transition. -/
theorem transicion_ilegal_counterexample :
    "pendiente" ∉ TRANSICIONES "pendiente" ∧
    runEstado dbC3 2 7 "pendiente" = (.yaEnEseEstado, dbC3) ∧
    EstadoResult.yaEnEseEstado ≠ EstadoResult.transicionNoPermitida := by
  decide

/-- C3, amended: for a participant's request whose `(current, target)` pair is
not in the transition table, the handler rejects with illegal-transition when
the target differs from the current state and with the already-in-that-state
no-op when it is the current state; either way the store is untouched. -/
theorem transicion_ilegal_rechazada (db : DB) (uid idI : Nat) (nuevo : String)
    (i : Intercambio) (costo : Int)
    (hq : estadoQuery db idI uid = some (i, costo))
    (hmem : nuevo ∈ ESTADOS)
    (hnot : nuevo ∉ TRANSICIONES i.estado) :
    (nuevo ≠ i.estado → runEstado db uid idI nuevo = (.transicionNoPermitida, db)) ∧
    (nuevo = i.estado → runEstado db uid idI nuevo = (.yaEnEseEstado, db)) := by
  constructor
  · intro hne
    unfold runEstado intercambios_estado
    rw [if_neg (not_not_intro hmem), hq]
    dsimp only
    rw [if_neg hne, if_pos hnot]
    rfl
  · intro he
    unfold runEstado intercambios_estado
    rw [if_neg (not_not_intro hmem), hq]
    dsimp only
    rw [if_pos he]
    rfl

/-- Witness for the amended C3: concrete instance at `dbC3`, pair
`(pendiente, completado)` (not in the table) and pair
`(pendiente, pendiente)`. -/
theorem transicion_ilegal_rechazada_witness :
    runEstado dbC3 2 7 "completado" = (.transicionNoPermitida, dbC3) :=
  (transicion_ilegal_rechazada dbC3 2 7 "completado" ⟨7, 5, 1, 2, none, "pendiente"⟩ 3
    (by decide) (by decide) (by decide)).1 (by decide)

/-- Sample store for the C5 counterexample, same shape as `dbC3`. -/
def dbC5 : DB :=
  { usuarios := [⟨1, 10⟩, ⟨2, 10⟩],
    servicios := [⟨5, 2, 3⟩],
    intercambios := [⟨7, 5, 1, 2, none, "pendiente"⟩],
    valoraciones := [] }

/-- C5, counterexample: user 1 is the requester (a participant, not the
provider) of pending exchange 7, and `en_progreso` is a forward target, yet
the request fails with illegal-transition — the table check fires before the
provider check — not with the not-authorized error the claim names. -/
theorem solo_proveedor_counterexample :
    estadoQuery dbC5 7 1 = some (⟨7, 5, 1, 2, none, "pendiente"⟩, 3) ∧
    ("en_progreso" = "confirmado" ∨ "en_progreso" = "en_progreso"
      ∨ "en_progreso" = "completado") ∧
    runEstado dbC5 1 7 "en_progreso" = (.transicionNoPermitida, dbC5) ∧
    EstadoResult.transicionNoPermitida ≠ EstadoResult.soloProveedor := by
  decide

/-- C5, amended: when the forward target is reachable from the current state
per the table (and differs from it), a participant who is not the provider is
refused with not-authorized and the store is untouched. -/
theorem solo_proveedor_avanza (db : DB) (uid idI : Nat) (nuevo : String)
    (i : Intercambio) (costo : Int)
    (hq : estadoQuery db idI uid = some (i, costo))
    (hfwd : nuevo = "confirmado" ∨ nuevo = "en_progreso" ∨ nuevo = "completado")
    (htab : nuevo ∈ TRANSICIONES i.estado)
    (hne : nuevo ≠ i.estado)
    (hnprov : uid ≠ i.id_proveedor) :
    runEstado db uid idI nuevo = (.soloProveedor, db) := by
  have hmem : nuevo ∈ ESTADOS := by
    rcases hfwd with h | h | h <;> simp [h, ESTADOS]
  unfold runEstado intercambios_estado
  rw [if_neg (not_not_intro hmem), hq]
  dsimp only
  rw [if_neg hne, if_neg (not_not_intro htab), if_pos ⟨hfwd, hnprov⟩]
  rfl

/-- Witness for the amended C5: the requester of `dbC5`'s pending exchange
tries the legal forward step to `confirmado` and is refused. -/
theorem solo_proveedor_avanza_witness :
    runEstado dbC5 1 7 "confirmado" = (.soloProveedor, dbC5) :=
  solo_proveedor_avanza dbC5 1 7 "confirmado" ⟨7, 5, 1, 2, none, "pendiente"⟩ 3
    (by decide) (by decide) (by decide) (by decide) (by decide)

/-- Scenario A of the spec: requester 1 with 10 credits, provider 2 with 10,
service 5 costs 3/h, exchange 7 in progress, credit mode. -/
def dbC1 : DB :=
  { usuarios := [⟨1, 10⟩, ⟨2, 10⟩],
    servicios := [⟨5, 2, 3⟩],
    intercambios := [⟨7, 5, 1, 2, none, "en_progreso"⟩],
    valoraciones := [] }

/-- Witness for C1: completing `dbC1`'s exchange moves the balances to 7 and
13 and conserves their sum. -/
theorem credit_settlement_conserva_y_debita_witness :
    (runEstado dbC1 2 7 "completado").1 = .ok ∧
    creditosDe (runEstado dbC1 2 7 "completado").2.usuarios 1 = some 7 ∧
    creditosDe (runEstado dbC1 2 7 "completado").2.usuarios 2 = some 13 := by
  have h := credit_settlement_conserva_y_debita dbC1 2 7 ⟨7, 5, 1, 2, none, "en_progreso"⟩
    3 10 10 (by decide) (by decide) (by decide) (by decide) (by decide) (by decide)
    (by decide) (by decide)
  exact ⟨h.1, h.2.1, h.2.2.1⟩

/-- Scenario B of the spec: like `dbC1` but the requester only has 2 credits,
below the cost of 3. -/
def dbC2 : DB :=
  { usuarios := [⟨1, 2⟩, ⟨2, 10⟩],
    servicios := [⟨5, 2, 3⟩],
    intercambios := [⟨7, 5, 1, 2, none, "en_progreso"⟩],
    valoraciones := [] }

/-- Witness for C2: the underfunded completion of `dbC2`'s exchange fails and
the store is exactly as before. -/
theorem saldo_insuficiente_aborta_witness :
    runEstado dbC2 2 7 "completado" = (.saldoInsuficiente, dbC2) :=
  (saldo_insuficiente_aborta dbC2 2 7 ⟨7, 5, 1, 2, none, "en_progreso"⟩ 3 2
    (by decide) (by decide) (by decide) (by decide) (by decide) (by decide)).1

/-- Scenario C of the spec: exchange 7 carries counter-service 9 owned by the
requester — barter mode. -/
def dbC6 : DB :=
  { usuarios := [⟨1, 10⟩, ⟨2, 10⟩],
    servicios := [⟨5, 2, 3⟩, ⟨9, 1, 2⟩],
    intercambios := [⟨7, 5, 1, 2, some 9, "en_progreso"⟩],
    valoraciones := [] }

/-- Witness for C6: the barter completion of `dbC6`'s exchange succeeds and
leaves the user table unchanged. -/
theorem trueque_no_mueve_saldos_witness :
    (runEstado dbC6 2 7 "completado").1 = .ok ∧
    (runEstado dbC6 2 7 "completado").2.usuarios = dbC6.usuarios := by
  have h := trueque_no_mueve_saldos dbC6 2 7 ⟨7, 5, 1, 2, some 9, "en_progreso"⟩ 3 9
    (by decide) (by decide) (by decide) (by decide)
  exact ⟨h.1, h.2.1⟩

/-- Store for the C4 analysis, same scenario as `dbC1`. -/
def dbC4 : DB :=
  { usuarios := [⟨1, 10⟩, ⟨2, 10⟩],
    servicios := [⟨5, 2, 3⟩],
    intercambios := [⟨7, 5, 1, 2, none, "en_progreso"⟩],
    valoraciones := [] }

/-- C4 fails on the code: the successful credit completion of `dbC4`'s
exchange issues its debit, credit and status write as three separately
committed statements, so among the persisted states the run passes through is
one where both balances have already moved while the exchange is still
`en_progreso` — credits moved without the status advancing. -/
theorem settlement_no_atomico :
    (intercambios_estado dbC4 2 7 "completado").1 = .ok ∧
    ∃ dbMid ∈ estadosAlcanzables dbC4 (intercambios_estado dbC4 2 7 "completado").2,
      creditosDe dbMid.usuarios 1 = some 7 ∧
      creditosDe dbMid.usuarios 2 = some 13 ∧
      estadoDe dbMid 7 = some "en_progreso" := by
  decide

/-- Store for the C7 analysis: user 1 owns service 5. -/
def dbC7 : DB :=
  { usuarios := [⟨1, 10⟩],
    servicios := [⟨5, 1, 3⟩],
    intercambios := [],
    valoraciones := [] }

/-- C7 fails on the code: the public-service path does reject requesting
one's own service, but the direct-creation path never compares requester and
provider, so user 1 can open an exchange with themselves over their own
service — violating the requester ≠ provider invariant. -/
theorem auto_solicitud_direct :
    intercambios_solicitar dbC7 1 5 7 = (.propioServicio, dbC7) ∧
    (intercambios_create_direct dbC7 1
        ⟨some 1, some 5, some "creditos", none, none, none, none⟩ 8 9).1 = .creado ∧
    ∃ j ∈ (intercambios_create_direct dbC7 1
        ⟨some 1, some 5, some "creditos", none, none, none, none⟩ 8 9).2.intercambios,
      j.id_solicitante = j.id_proveedor := by
  decide

/-- Store for the C8 counterexample: exchange 7 is `completado` — it has
left `pendiente` and was never cancelled. -/
def dbC8 : DB :=
  { usuarios := [⟨1, 7⟩, ⟨2, 13⟩],
    servicios := [⟨5, 2, 3⟩],
    intercambios := [⟨7, 5, 1, 2, none, "completado"⟩],
    valoraciones := [] }

/-- C8, counterexample: a completed exchange — which has left `pendiente` and
was not cancelled first — is hard-deleted by a participant; only
`confirmado`/`en_progreso` are protected. -/
theorem borrado_counterexample :
    estadoDe dbC8 7 = some "completado" ∧
    intercambios_delete dbC8 1 7 = (.eliminado, { dbC8 with intercambios := [] }) := by
  decide

/-- C8, amended: while an exchange is `confirmado` or `en_progreso`, no actor
can hard-delete it: the call never reports a deletion and the store — the
exchange record included — is untouched. -/
theorem borrado_bloqueado (db : DB) (uid idI : Nat) (i : Intercambio)
    (hf : db.intercambios.find? (fun j => j.id == idI) = some i)
    (hst : i.estado = "confirmado" ∨ i.estado = "en_progreso") :
    (intercambios_delete db uid idI).1 ≠ .eliminado ∧
    (intercambios_delete db uid idI).2 = db := by
  unfold intercambios_delete
  rw [hf]
  dsimp only
  by_cases hperm : uid ≠ i.id_solicitante ∧ uid ≠ i.id_proveedor
  · rw [if_pos hperm]
    exact ⟨by simp, rfl⟩
  · rw [if_neg hperm, if_pos hst]
    exact ⟨by simp, rfl⟩

/-- Store for the C8 witness: exchange 7 is `confirmado`. -/
def dbC8b : DB :=
  { usuarios := [⟨1, 10⟩, ⟨2, 10⟩],
    servicios := [⟨5, 2, 3⟩],
    intercambios := [⟨7, 5, 1, 2, none, "confirmado"⟩],
    valoraciones := [] }

/-- Witness for the amended C8: the requester cannot delete `dbC8b`'s
confirmed exchange. -/
theorem borrado_bloqueado_witness :
    (intercambios_delete dbC8b 1 7).1 ≠ .eliminado ∧
    (intercambios_delete dbC8b 1 7).2 = dbC8b :=
  borrado_bloqueado dbC8b 1 7 ⟨7, 5, 1, 2, none, "confirmado"⟩ (by decide) (by decide)

/-- C9: once a rating by this author for this exchange exists, any further
submission — whatever the score and comment — is refused with already-rated
and the store, the rating table included, is untouched. -/
theorem valoracion_duplicada_rechazada (db : DB) (uid idI newId : Nat) (i : Intercambio)
    (puntuacion : Option Int) (comentario : Option String)
    (hf : db.intercambios.find? (fun j => j.id == idI &&
        (j.id_solicitante == uid || j.id_proveedor == uid)) = some i)
    (hst : i.estado = "completado")
    (hya : db.valoraciones.any
        (fun v => v.id_intercambio == idI && v.id_autor == uid) = true) :
    valoraciones_create db uid idI puntuacion comentario newId = (.yaValorado, db) := by
  unfold valoraciones_create
  rw [hf]
  dsimp only
  rw [if_neg (not_not_intro hst), if_pos hya]

/-- Store for the C9 witness: completed exchange 7 already rated by user 1. -/
def dbC9 : DB :=
  { usuarios := [⟨1, 7⟩, ⟨2, 13⟩],
    servicios := [⟨5, 2, 3⟩],
    intercambios := [⟨7, 5, 1, 2, none, "completado"⟩],
    valoraciones := [⟨1, 7, 1, 2, 5, "excelente"⟩] }

/-- Witness for C9: user 1's second rating of exchange 7, with a different
score and comment, is refused and nothing is written. -/
theorem valoracion_duplicada_rechazada_witness :
    valoraciones_create dbC9 1 7 (some 3) (some "otra") 2 = (.yaValorado, dbC9) :=
  valoracion_duplicada_rechazada dbC9 1 7 2 ⟨7, 5, 1, 2, none, "completado"⟩
    (some 3) (some "otra") (by decide) (by decide) (by decide)

/-- C10: when the provider accepts a pending exchange in credit mode, the
stored record loses any counter-service reference and moves to `confirmado` —
so a later completion takes the credit-settlement branch, which is selected
exactly by `id_servicio_contraparte = none`. -/
theorem aceptar_creditos_limpia_contraparte (db : DB) (uid idI : Nat) (i : Intercambio)
    (co : Option Int)
    (huniq : db.intercambios.Pairwise (fun a b => a.id ≠ b.id))
    (hq : aceptarQuery db idI uid = some i)
    (hst : i.estado = "pendiente") :
    (intercambios_aceptar db uid idI (some "creditos") co).1 = .aceptadoCreditos ∧
    (intercambios_aceptar db uid idI (some "creditos") co).2.intercambios.find?
        (fun j => j.id == idI)
      = some { i with id_servicio_contraparte := none, estado := "confirmado" } := by
  have hfind : db.intercambios.find?
      (fun j => j.id == idI && j.id_proveedor == uid) = some i := by
    unfold aceptarQuery at hq
    split at hq
    · exact absurd hq (by simp)
    · rename_i j hj
      split at hq
      · cases hq; exact hj
      · exact absurd hq (by simp)
  have hp := List.find?_some hfind
  simp only [Bool.and_eq_true, beq_iff_eq] at hp
  obtain ⟨hid, hprov⟩ := hp
  have hmem := List.mem_of_find?_eq_some hfind
  have hkey := find?_eq_of_mem_of_nodupKeys Intercambio.id db.intercambios huniq i hmem idI hid
  have hm : strip ((some "creditos" : Option String).getD "") = "creditos" := by decide
  unfold intercambios_aceptar
  rw [hq]
  dsimp only
  rw [if_neg (not_not_intro hst), if_pos hm]
  refine ⟨rfl, ?_⟩
  rw [find?_map_key Intercambio.id _
    (fun a => by by_cases h : a.id = idI ∧ a.id_proveedor = uid <;> simp [h]) idI, hkey]
  simp [hid, hprov]

/-- Store for the C10 witness: pending exchange 7 already carries barter
offer 9 from the requester. -/
def dbC10 : DB :=
  { usuarios := [⟨1, 10⟩, ⟨2, 10⟩],
    servicios := [⟨5, 2, 3⟩, ⟨9, 1, 2⟩],
    intercambios := [⟨7, 5, 1, 2, some 9, "pendiente"⟩],
    valoraciones := [] }

/-- Witness for C10: provider 2 accepts in credit mode; the previously
attached counter-service 9 is discarded and the record reads `confirmado`. -/
theorem aceptar_creditos_limpia_contraparte_witness :
    (intercambios_aceptar dbC10 2 7 (some "creditos") none).1 = .aceptadoCreditos ∧
    (intercambios_aceptar dbC10 2 7 (some "creditos") none).2.intercambios.find?
        (fun j => j.id == 7)
      = some ⟨7, 5, 1, 2, none, "confirmado"⟩ :=
  aceptar_creditos_limpia_contraparte dbC10 2 7 ⟨7, 5, 1, 2, some 9, "pendiente"⟩ none
    (by simp [dbC10]) (by decide) (by decide)

end IntercambioDorado
